import Mathlib

/-!
Shallow embedding of the pixel-to-map projection component
(`PixelToMapNoCanvas_sony_static_cam.tsx`) over the real numbers, together
with theorems settling the specification claims about it.

JavaScript numbers are modelled by `ℝ`; `Number.isFinite` guards are
vacuously true in this model, `null`/`undefined` results are modelled by
`Option`, and JS truthiness tests on numbers (`x ? … : …`, `x || y`)
become zero tests.
-/

noncomputable section

namespace PixelToMap

/-- Column vector in ℝ³, as used by `matVec` in the source. -/
structure V3 where
  x : ℝ
  y : ℝ
  z : ℝ

/-- Row-major 3×3 matrix, mirroring the `number[][]` matrices of the source. -/
structure M3 where
  m00 : ℝ
  m01 : ℝ
  m02 : ℝ
  m10 : ℝ
  m11 : ℝ
  m12 : ℝ
  m20 : ℝ
  m21 : ℝ
  m22 : ℝ

/-- Source `matMul`: 3×3 matrix product, written entrywise as the source loop computes it. -/
def matMul (A B : M3) : M3 where
  m00 := A.m00 * B.m00 + A.m01 * B.m10 + A.m02 * B.m20
  m01 := A.m00 * B.m01 + A.m01 * B.m11 + A.m02 * B.m21
  m02 := A.m00 * B.m02 + A.m01 * B.m12 + A.m02 * B.m22
  m10 := A.m10 * B.m00 + A.m11 * B.m10 + A.m12 * B.m20
  m11 := A.m10 * B.m01 + A.m11 * B.m11 + A.m12 * B.m21
  m12 := A.m10 * B.m02 + A.m11 * B.m12 + A.m12 * B.m22
  m20 := A.m20 * B.m00 + A.m21 * B.m10 + A.m22 * B.m20
  m21 := A.m20 * B.m01 + A.m21 * B.m11 + A.m22 * B.m21
  m22 := A.m20 * B.m02 + A.m21 * B.m12 + A.m22 * B.m22

/-- Source `matVec`: matrix–vector product. -/
def matVec (A : M3) (v : V3) : V3 where
  x := A.m00 * v.x + A.m01 * v.y + A.m02 * v.z
  y := A.m10 * v.x + A.m11 * v.y + A.m12 * v.z
  z := A.m20 * v.x + A.m21 * v.y + A.m22 * v.z

/-- Source `deg2rad`. -/
def deg2rad (d : ℝ) : ℝ := d * Real.pi / 180

/-- Source `Rx`: rotation about the first (East) axis. -/
def Rx (a : ℝ) : M3 :=
  ⟨1, 0, 0,
   0, Real.cos a, -Real.sin a,
   0, Real.sin a, Real.cos a⟩

/-- Source `Ry`: rotation about the second (North) axis. -/
def Ry (a : ℝ) : M3 :=
  ⟨Real.cos a, 0, Real.sin a,
   0, 1, 0,
   -Real.sin a, 0, Real.cos a⟩

/-- Source `Rz`: rotation about the third (Up) axis. -/
def Rz (a : ℝ) : M3 :=
  ⟨Real.cos a, -Real.sin a, 0,
   Real.sin a, Real.cos a, 0,
   0, 0, 1⟩

/-- The base matrix `[[1,0,0],[0,-1,0],[0,0,-1]]` used by both projectors. -/
def R_base : M3 := ⟨1, 0, 0, 0, -1, 0, 0, 0, -1⟩

/-- The identity base matrix selected by the `dbgAltBase` debug flag. -/
def M3id : M3 := ⟨1, 0, 0, 0, 1, 0, 0, 0, 1⟩

/-- Source `normalize`: divide by `Math.hypot(x,y,z) || 1`. -/
def normalize (v : V3) : V3 :=
  let n := Real.sqrt (v.x ^ 2 + v.y ^ 2 + v.z ^ 2)
  let n := if n = 0 then 1 else n
  ⟨v.x / n, v.y / n, v.z / n⟩

/-- Source `metersPerDeg`: returns `(mlat, mlon)`. -/
def metersPerDeg (latDeg : ℝ) : ℝ × ℝ :=
  let L := deg2rad latDeg
  (111132.92 - 559.82 * Real.cos (2 * L) + 1.175 * Real.cos (4 * L)
      - 0.0023 * Real.cos (6 * L),
   111412.84 * Real.cos L - 93.5 * Real.cos (3 * L) + 0.118 * Real.cos (5 * L))

/-- Source `fxFromFovX`; `fovx_deg || 1e-6` is the JS truthiness fallback for a zero fov. -/
def fxFromFovX (W fovx_deg : ℝ) : ℝ :=
  let f := if fovx_deg = 0 then 1e-6 else fovx_deg
  let half := Real.tan (deg2rad (f / 2))
  W / 2 / max half 1e-9

/-- Source `distortNormXY` (forward Brown–Conrady distortion); the distortion
coefficients that the source reads from component state are explicit arguments here. -/
def distortNormXY (k1 k2 k3 p1 p2 x y : ℝ) : ℝ × ℝ :=
  let r2 := x * x + y * y
  let r4 := r2 * r2
  let r6 := r4 * r2
  let radial := 1 + k1 * r2 + k2 * r4 + k3 * r6
  let x_tan := 2 * p1 * x * y + p2 * (r2 + 2 * x * x)
  let y_tan := p1 * (r2 + 2 * y * y) + 2 * p2 * x * y
  (x * radial + x_tan, y * radial + y_tan)

/-- The fixed-point iteration inside source `undistortPixel`: `n` applications of
the update step, started at the observed normalized coordinates `(xn, yn)`. -/
def undistortIter (k1 k2 k3 p1 p2 xn yn : ℝ) : ℕ → ℝ × ℝ
  | 0 => (xn, yn)
  | n + 1 =>
    let p := undistortIter k1 k2 k3 p1 p2 xn yn n
    let xu := p.1
    let yu := p.2
    let r2 := xu * xu + yu * yu
    let r4 := r2 * r2
    let r6 := r4 * r2
    let radial := 1 + k1 * r2 + k2 * r4 + k3 * r6
    let x_tan := 2 * p1 * xu * yu + p2 * (r2 + 2 * xu * xu)
    let y_tan := p1 * (r2 + 2 * yu * yu) + 2 * p2 * xu * yu
    let x_est := xu * radial + x_tan
    let y_est := yu * radial + y_tan
    (xu - (x_est - xn), yu - (y_est - yn))

/-- Source `undistortPixel`: normalizes the pixel, runs the fixed-point loop
`for (let i=0; i<5; i++)`, and denormalizes. -/
def undistortPixel (k1 k2 k3 p1 p2 u v fx fy cx cy : ℝ) : ℝ × ℝ :=
  let xn := (u - cx) / fx
  let yn := (v - cy) / fy
  let p := undistortIter k1 k2 k3 p1 p2 xn yn 5
  (p.1 * fx + cx, p.2 * fy + cy)

/-- The orientation strings distinguished by the `switch` in source `uvDisplayToSensor`. -/
inductive OrientKind
  | rot90cw
  | rot270cw
  | rot180
  | normal
deriving DecidableEq

/-- Component state read by the projection helpers (React `useState` values and
debug flags; all flags start `false` and `dbgYawOffset` starts `0`). -/
structure CamState where
  fx : ℝ
  fy : ℝ
  cx : ℝ
  cy : ℝ
  fovx : ℝ
  k1 : ℝ
  k2 : ℝ
  p1 : ℝ
  p2 : ℝ
  k3 : ℝ
  lat : ℝ
  lon : ℝ
  alt_m : ℝ
  yaw : ℝ
  pitch : ℝ
  roll : ℝ
  groundAlt : ℝ
  imgW : ℝ
  imgH : ℝ
  oriNormalized : Bool
  orientation : OrientKind
  dbgFlipPitch : Bool
  dbgFlipRoll : Bool
  dbgAltOrder : Bool
  dbgAltBase : Bool
  dbgInvertV : Bool
  dbgYawOffset : ℝ

/-- Source `uvDisplayToSensor`. -/
def uvDisplayToSensor (s : CamState) (uDisp vDisp : ℝ) : ℝ × ℝ :=
  if s.oriNormalized then (uDisp, vDisp)
  else
    match s.orientation with
    | .rot90cw => (vDisp, s.imgH - uDisp)
    | .rot270cw => (s.imgW - vDisp, uDisp)
    | .rot180 => (s.imgW - uDisp, s.imgH - vDisp)
    | .normal => (uDisp, vDisp)

/-- The effective focal/principal intrinsics computed at the top of both
projectors (`Number.isFinite` checks are vacuous over ℝ; `fx !== 0` remains). -/
def effFx (s : CamState) : ℝ := if s.fx ≠ 0 then s.fx else fxFromFovX s.imgW s.fovx

/-- Effective `fy`: falls back to the effective `fx`. -/
def effFy (s : CamState) : ℝ := if s.fy ≠ 0 then s.fy else effFx s

/-- Whether any distortion coefficient is set — the JS truthiness test
`if (k1 || k2 || k3 || p1 || p2)`. -/
def hasDistortion (s : CamState) : Prop :=
  s.k1 ≠ 0 ∨ s.k2 ≠ 0 ∨ s.k3 ≠ 0 ∨ s.p1 ≠ 0 ∨ s.p2 ≠ 0

instance (s : CamState) : Decidable (hasDistortion s) := by
  unfold hasDistortion; infer_instance

/-- The undistortion step shared by `project` and `projectOnDEM`'s `basic` block. -/
def undistortedUV (s : CamState) (u v : ℝ) : ℝ × ℝ :=
  if hasDistortion s then
    undistortPixel s.k1 s.k2 s.k3 s.p1 s.p2 u v (effFx s) (effFy s) s.cx s.cy
  else (u, v)

/-- The camera-to-ENU rotation built inside source `project`
(lines 609–626), including the debug-flag branches. -/
def projectRot (s : CamState) : M3 :=
  let R_b := if s.dbgAltBase then M3id else R_base
  let yawDeg := s.yaw + s.dbgYawOffset
  let pitchDeg := if s.dbgFlipPitch then -s.pitch else s.pitch
  let rollDeg := if s.dbgFlipRoll then -s.roll else s.roll
  let Rz_yaw := Rz (deg2rad yawDeg)
  let Rx_roll := Rx (deg2rad rollDeg)
  let Ry_pitch := Ry (deg2rad pitchDeg)
  if s.dbgAltOrder then matMul Rz_yaw (matMul Ry_pitch (matMul Rx_roll R_b))
  else matMul Rz_yaw (matMul Rx_roll (matMul Ry_pitch R_b))

/-- The flat-ground ray–plane intersection at the end of source `project`
(lines 631–642): `none` on a near-horizontal ray or a negative parametric
distance, otherwise the East/North offsets `(t·dx, t·dy)` of the hit. -/
def groundIntersectFlat (d : V3) (camAlt gAlt : ℝ) : Option (ℝ × ℝ) :=
  if |d.z| < 1e-6 then none
  else
    let t := (gAlt - camAlt) / d.z
    if t < 0 then none
    else some (t * d.x, t * d.y)

/-- Source `project`: flat-plane projector from a display pixel to
`(lat, lon, slant range)`. -/
def project (s : CamState) (uDisp vDisp : ℝ) : Option (ℝ × ℝ × ℝ) :=
  let uv := uvDisplayToSensor s uDisp vDisp
  let uvU := undistortedUV s uv.1 uv.2
  let x := (uvU.1 - s.cx) / effFx s
  let y := ((if s.dbgInvertV then s.imgH - uvU.2 else uvU.2) - s.cy) / effFy s
  let d_cam := normalize ⟨x, y, 1⟩
  let d_enu := matVec (projectRot s) d_cam
  match groundIntersectFlat d_enu s.alt_m s.groundAlt with
  | none => none
  | some p =>
    let m := metersPerDeg s.lat
    some (s.lat + p.2 / m.1, s.lon + p.1 / m.2, Real.sqrt (p.1 ^ 2 + p.2 ^ 2))

/-- The camera-to-ENU rotation built inside source `projectOnDEM`
(lines 251–256): `Rz(yaw) · Rx(−pitch) · Ry(roll) · R_base`. -/
def R_enu_cam_dem (yaw pitch roll : ℝ) : M3 :=
  matMul (Rz (deg2rad yaw))
    (matMul (Rx (deg2rad (-pitch))) (matMul (Ry (deg2rad roll)) R_base))

/-- The normalized ENU ray direction computed by the `basic` block of source
`projectOnDEM` for a display pixel. -/
def demDir (s : CamState) (uDisp vDisp : ℝ) : V3 :=
  let uv := uvDisplayToSensor s uDisp vDisp
  let uvU := undistortedUV s uv.1 uv.2
  let x := (uvU.1 - s.cx) / effFx s
  let y := (uvU.2 - s.cy) / effFy s
  normalize (matVec (R_enu_cam_dem s.yaw s.pitch s.roll) ⟨x, y, 1⟩)

/-- The `(lat, lon, range)` value built from a parametric distance `t` and the
current latitude, as the code after `projectOnDEM`'s loop does. -/
def demReturn (lat lon : ℝ) (d : V3) (t latCur : ℝ) : ℝ × ℝ × ℝ :=
  let m := metersPerDeg latCur
  let xE := t * d.x
  let yN := t * d.y
  (lat + yN / m.1, lon + xE / m.2, Real.sqrt (xE ^ 2 + yN ^ 2))

/-- The `for (let i=0; i<8; i++)` refinement loop of source `projectOnDEM`,
with the remaining iteration budget as fuel.  `sample` is `sampleDEM_AMSL`
partially applied to the loaded DEM (or `fun _ _ => none` when no DEM is
loaded, so that `?? groundAlt` always falls back); a `break` and loop
exhaustion both produce the post-loop `demReturn` value. -/
def demLoop (sample : ℝ → ℝ → Option ℝ) (groundAlt lat lon alt : ℝ) (d : V3) :
    ℕ → ℝ → ℝ → ℝ × ℝ × ℝ
  | 0, t, latCur => demReturn lat lon d t latCur
  | n + 1, t, latCur =>
    let m := metersPerDeg latCur
    let xE := t * d.x
    let yN := t * d.y
    let latGuess := lat + yN / m.1
    let lonGuess := lon + xE / m.2
    let zGround := (sample latGuess lonGuess).getD groundAlt
    let tNew := (zGround - alt) / d.z
    if tNew < 0 then demReturn lat lon d t latCur
    else if |tNew - t| < 0.05 then (latGuess, lonGuess, Real.sqrt (xE ^ 2 + yN ^ 2))
    else demLoop sample groundAlt lat lon alt d n tNew latGuess

/-- Source `projectOnDEM`: DEM-aware projector.  `dem` is `some sample` when a
DEM is loaded (`sample lat lon` modelling `sampleDEM_AMSL`), `none` otherwise. -/
def projectOnDEM (s : CamState) (dem : Option (ℝ → ℝ → Option ℝ)) (uDisp vDisp : ℝ) :
    Option (ℝ × ℝ × ℝ) :=
  let d_enu := demDir s uDisp vDisp
  if |d_enu.z| < 1e-6 then none
  else
    let t0 := (s.groundAlt - s.alt_m) / d_enu.z
    let t1 := if t0 < 0 then 1 else t0
    let sampleF : ℝ → ℝ → Option ℝ :=
      match dem with
      | some f => f
      | none => fun _ _ => none
    some (demLoop sampleF s.groundAlt s.lat s.lon s.alt_m d_enu 8 t1 s.lat)

/-- Source constant `DEM_OFFSET_M`. -/
def DEM_OFFSET_M : ℝ := 20

/-- Loaded-DEM state (`DemState` in the source, with a GeoTIFF image present):
raster values are modelled as a total function of (row, col).
`isGeographic4326` is `Option Bool` because the source tests `=== false`,
which `undefined` does not satisfy. -/
structure Dem where
  width : ℤ
  height : ℤ
  originX : ℝ
  originY : ℝ
  resX : ℝ
  resY : ℝ
  noData : Option ℝ
  isGeographic4326 : Option Bool
  raster : ℤ → ℤ → ℝ

/-- Source `demLatLonToRC`: `(row, col)` of a geographic coordinate.  The JS
truthiness guard `!d.originX || …` rejects zero (or missing) geo-referencing
parameters. -/
def demLatLonToRC (d : Dem) (latDeg lonDeg : ℝ) : Option (ℝ × ℝ) :=
  if d.originX = 0 ∨ d.originY = 0 ∨ d.resX = 0 ∨ d.resY = 0 then none
  else some ((latDeg - d.originY) / d.resY, (lonDeg - d.originX) / d.resX)

/-- The `ok` predicate inside source `sampleDEM_AMSL`: a sample is valid unless
it equals the declared no-data value (`Number.isFinite` is vacuous over ℝ). -/
def demOk (nd : Option ℝ) (v : ℝ) : Bool :=
  match nd with
  | none => true
  | some d0 => if v = d0 then false else true

/-- Source `sampleDEM_AMSL`: CRS guard, geolocation, 1-pixel-margin bounds
check, 2×2 window read, validity filtering, and bilinear interpolation plus
`DEM_OFFSET_M` on the all-valid path.  `dem = none` models the missing
image/width/height guard at the top. -/
def sampleDEM_AMSL (dem : Option Dem) (latDeg lonDeg : ℝ) : Option ℝ :=
  match dem with
  | none => none
  | some d =>
    if d.isGeographic4326 = some false then none
    else
      match demLatLonToRC d latDeg lonDeg with
      | none => none
      | some rc =>
        let row := rc.1
        let col := rc.2
        let r0 := ⌊row⌋
        let c0 := ⌊col⌋
        if r0 < 0 ∨ r0 ≥ d.height - 1 ∨ c0 < 0 ∨ c0 ≥ d.width - 1 then none
        else
          let z00 := d.raster r0 c0
          let z10 := d.raster r0 (c0 + 1)
          let z01 := d.raster (r0 + 1) c0
          let z11 := d.raster (r0 + 1) (c0 + 1)
          if demOk d.noData z00 ∧ demOk d.noData z10 ∧ demOk d.noData z01 ∧
              demOk d.noData z11 then
            let dx := col - (c0 : ℝ)
            let dy := row - (r0 : ℝ)
            let z0 := z00 * (1 - dx) + z10 * dx
            let z1 := z01 * (1 - dx) + z11 * dx
            some (z0 * (1 - dy) + z1 * dy + DEM_OFFSET_M)
          else
            match List.filter (fun v => demOk d.noData v) [z00, z10, z01, z11] with
            | [] => none
            | v :: _ => some v

/-- Comparison of candidate scores in `autoFixPose`, with `none` standing for
`Number.POSITIVE_INFINITY` (the JS comparator `a.score - b.score` yields a
stable sort whose head is the first strictly-minimal candidate). -/
def scoreLt : Option ℝ → Option ℝ → Prop
  | some a, some b => a < b
  | some _, none => True
  | none, _ => False

instance : ∀ a b : Option ℝ, Decidable (scoreLt a b)
  | some a, some b => by unfold scoreLt; infer_instance
  | some _, none => by unfold scoreLt; infer_instance
  | none, some _ => by unfold scoreLt; infer_instance
  | none, none => by unfold scoreLt; infer_instance

/-- The per-candidate score of source `autoFixPose`.  React state updates are
deferred, so the `project(u0, v0)` call inside the loop still sees the
original pose: `hit` is therefore the same value for every sign combination,
and only the locally recomputed rotation `Rz(yv)·Rx(−pv)·Ry(rv)·R_base`
varies.  `hit.range || 1` is a JS truthiness fallback for a zero range. -/
def autoFixScore (hit : Option (ℝ × ℝ × ℝ)) (yv pv rv : ℝ) : Option ℝ :=
  match hit with
  | none => none
  | some h =>
    let d_enu := matVec (R_enu_cam_dem yv pv rv) (normalize ⟨0, 0, 1⟩)
    let dz := |d_enu.z|
    let dist := max 1 (if h.2.2 = 0 then 1 else h.2.2)
    some (dist + 1 / (dz + 1e-6) * 50)

/-- Source `autoFixPose`.  Returns `some (yaw, pitch, roll)` when a best
combination is applied, `none` when the function bails out (missing image, or
all eight scores infinite: "no valid ground intersection").  Because of the
stale-closure issue documented at `autoFixScore`, every candidate is scored
against the projection of the unmodified pose. -/
def autoFixPose (s : CamState) : Option (ℝ × ℝ × ℝ) :=
  if s.imgW = 0 ∨ s.imgH = 0 then none
  else
    let u0 := s.imgW / 2
    let v0 := s.imgH / 2
    let hit := project s u0 v0
    let combos :=
      [s.yaw, -s.yaw].flatMap fun yv =>
        [s.pitch, -s.pitch].flatMap fun pv =>
          [s.roll, -s.roll].map fun rv => (yv, pv, rv)
    match combos with
    | [] => none
    | c :: rest =>
      let best := rest.foldl
        (fun b c' =>
          if scoreLt (autoFixScore hit c'.1 c'.2.1 c'.2.2)
              (autoFixScore hit b.1 b.2.1 b.2.2) then c' else b) c
      if autoFixScore hit best.1 best.2.1 best.2.2 = none then none
      else some best

/-- Modelled from the spec: the composition order
`R = Rz(yaw)·Rx(pitch)·Ry(roll)·R_base` with the three angle arguments taken
literally (degrees, converted to radians, no sign flips).  Used to compare the
spec's stated rotation against the rotations the code actually builds. -/
def RzRxRyBase (yawArg pitchArg rollArg : ℝ) : M3 :=
  matMul (Rz (deg2rad yawArg))
    (matMul (Rx (deg2rad pitchArg)) (matMul (Ry (deg2rad rollArg)) R_base))

/-- Modelled from the spec: the rotation exactly as the claim states it —
yaw unflipped, pitch as-is, roll negated before building its matrix. -/
def claimRotation (yaw pitch roll : ℝ) : M3 := RzRxRyBase yaw pitch (-roll)

/-! ### Helper lemmas -/

theorem deg2rad_zero : deg2rad 0 = 0 := by
  unfold deg2rad; ring

theorem deg2rad_90 : deg2rad 90 = Real.pi / 2 := by
  unfold deg2rad; ring

theorem deg2rad_neg (d : ℝ) : deg2rad (-d) = -deg2rad d := by
  unfold deg2rad; ring

theorem normalize_unitZ : normalize ⟨0, 0, 1⟩ = ⟨0, 0, 1⟩ := by
  unfold normalize
  norm_num [Real.sqrt_one]

theorem undistortIter_zero (k1 k2 k3 p1 p2 : ℝ) :
    ∀ n, undistortIter k1 k2 k3 p1 p2 0 0 n = (0, 0) := by
  intro n
  induction n with
  | zero => rfl
  | succ n ih => simp [undistortIter, ih]

theorem undistortedUV_pp (s : CamState) : undistortedUV s s.cx s.cy = (s.cx, s.cy) := by
  unfold undistortedUV
  split
  · unfold undistortPixel
    simp [undistortIter_zero]
  · rfl

theorem projectRot_nadir (s : CamState)
    (hpitch : s.pitch = 0) (hroll : s.roll = 0)
    (hfp : s.dbgFlipPitch = false) (hfr : s.dbgFlipRoll = false)
    (hao : s.dbgAltOrder = false) (hab : s.dbgAltBase = false) :
    matVec (projectRot s) ⟨0, 0, 1⟩ = ⟨0, 0, -1⟩ := by
  simp [projectRot, hpitch, hroll, hfp, hfr, hao, hab, matMul, matVec,
    Rx, Ry, Rz, R_base, M3id, deg2rad_zero, Real.cos_zero, Real.sin_zero]

theorem groundIntersectFlat_nadir (a g : ℝ) (hg : g < a) :
    groundIntersectFlat ⟨0, 0, -1⟩ a g = some (0, 0) := by
  unfold groundIntersectFlat
  rw [if_neg (by norm_num), if_neg (by simp; nlinarith)]
  norm_num

/-! ### Claim C1 -/

/-- Claim C1 as stated is false: at yaw = 0, pitch = 90, roll = 0 the rotation
built by `projectOnDEM` is `Rz(0)·Rx(−90°)·Ry(0)·R_base`, which differs from
the claimed `Rz(0)·Rx(90°)·Ry(−0°)·R_base` (the (1,2) entries are −1 and 1). -/
theorem C1_counterexample : R_enu_cam_dem 0 90 0 ≠ claimRotation 0 90 0 := by
  intro h
  have h12 := congrArg M3.m12 h
  simp [R_enu_cam_dem, claimRotation, RzRxRyBase, matMul, Rz, Rx, Ry, R_base,
    deg2rad_neg, deg2rad_zero, deg2rad_90, Real.cos_pi_div_two,
    Real.sin_pi_div_two, Real.cos_zero, Real.sin_zero] at h12
  norm_num at h12

/-- Claim C1, amended: with `R_base = diag(1,−1,−1)` and yaw applied without a
sign flip in both projectors, `projectOnDEM` builds
`Rz(yaw)·Rx(pitch′)·Ry(roll′)·R_base` with the pitch negated and the roll
applied as-is (`pitch′ = −pitch`, `roll′ = roll`), while `project` under the
default debug flags feeds roll to the East-axis rotation and pitch to the
North-axis rotation, neither negated: `Rz(yaw)·Rx(roll)·Ry(pitch)·R_base`. -/
theorem C1_amended_rotations :
    (∀ y p r : ℝ, R_enu_cam_dem y p r = RzRxRyBase y (-p) r) ∧
    (∀ s : CamState, s.dbgAltBase = false → s.dbgAltOrder = false →
      s.dbgFlipPitch = false → s.dbgFlipRoll = false → s.dbgYawOffset = 0 →
      projectRot s = RzRxRyBase s.yaw s.roll s.pitch) := by
  constructor
  · intro y p r; rfl
  · intro s h1 h2 h3 h4 h5
    simp [projectRot, RzRxRyBase, h1, h2, h3, h4, h5]

/-- Witness for the amended C1 at a concrete state. -/
theorem C1_amended_rotations_witness :
    projectRot
      ⟨1000, 1000, 500, 500, 54.55, 0, 0, 0, 0, 0, 40, 44.5, 120, 10, 20, 30,
        0, 1000, 1000, true, .normal, false, false, false, false, false, 0⟩ =
      RzRxRyBase 10 30 20 :=
  C1_amended_rotations.2 _ rfl rfl rfl rfl rfl

/-! ### Claim C2 -/

/-- Claim C2: a camera looking straight down (pitch = roll = 0, default debug
flags) above the ground (`groundAlt < alt`), projecting the pixel at the
principal point (the image center in the claimed configuration), returns
exactly the camera's own (lat, lon) and slant range 0. -/
theorem C2_nadir_center_projects_to_camera (s : CamState) (u v : ℝ)
    (hori : s.oriNormalized = true)
    (hpitch : s.pitch = 0) (hroll : s.roll = 0)
    (hfp : s.dbgFlipPitch = false) (hfr : s.dbgFlipRoll = false)
    (hao : s.dbgAltOrder = false) (hab : s.dbgAltBase = false)
    (hiv : s.dbgInvertV = false)
    (hu : u = s.cx) (hv : v = s.cy)
    (hg : s.groundAlt < s.alt_m) :
    project s u v = some (s.lat, s.lon, 0) := by
  have h1 : uvDisplayToSensor s u v = (s.cx, s.cy) := by
    simp [uvDisplayToSensor, hori, hu, hv]
  have h3 : matVec (projectRot s) (normalize ⟨(s.cx - s.cx) / effFx s,
      ((s.cy : ℝ) - s.cy) / effFy s, 1⟩) = ⟨0, 0, -1⟩ := by
    rw [show ((s.cx - s.cx) / effFx s : ℝ) = 0 by simp,
      show (((s.cy : ℝ) - s.cy) / effFy s : ℝ) = 0 by simp,
      normalize_unitZ, projectRot_nadir s hpitch hroll hfp hfr hao hab]
  unfold project
  rw [h1]
  simp only [undistortedUV_pp, hiv, Bool.false_eq_true, if_false]
  rw [h3, groundIntersectFlat_nadir _ _ hg]
  norm_num

/-- Witness for C2 at the concrete configuration of the claim:
lat 40, lon 44.5, alt 120 m, yaw = pitch = roll = 0, ground 0 m, 1000×1000
image, fx = fy = 1000, cx = cy = 500, no distortion, click at (500, 500). -/
theorem C2_witness :
    project
      ⟨1000, 1000, 500, 500, 54.55, 0, 0, 0, 0, 0, 40, 44.5, 120, 0, 0, 0,
        0, 1000, 1000, true, .normal, false, false, false, false, false, 0⟩
      500 500 = some (40, 44.5, 0) :=
  C2_nadir_center_projects_to_camera _ 500 500 rfl rfl rfl rfl rfl rfl rfl rfl
    rfl rfl (by norm_num)

/-! ### Claim C3 -/

/-- Claim C3: the flat-ground intersector returns `none` exactly when
`|dz| < 1e-6` or the parametric distance `t = (g − a)/dz` is negative;
otherwise it returns the offsets `(t·dx, t·dy)`; a ray with `dz = 0` returns
`none`.  (The no-throw / no-NaN part of the claim is vacuous in the real-number
model, where every value is finite.) -/
theorem C3_flat_intersector_guards (d : V3) (camAlt gAlt : ℝ) :
    (groundIntersectFlat d camAlt gAlt = none ↔
      |d.z| < 1e-6 ∨ (gAlt - camAlt) / d.z < 0) ∧
    (¬(|d.z| < 1e-6 ∨ (gAlt - camAlt) / d.z < 0) →
      groundIntersectFlat d camAlt gAlt =
        some ((gAlt - camAlt) / d.z * d.x, (gAlt - camAlt) / d.z * d.y)) ∧
    (d.z = 0 → groundIntersectFlat d camAlt gAlt = none) := by
  refine ⟨?_, ?_, ?_⟩
  · by_cases h1 : |d.z| < 1e-6
    · simp [groundIntersectFlat, h1]
    · by_cases h2 : (gAlt - camAlt) / d.z < 0
      · simp [groundIntersectFlat, h1, h2]
      · simp [groundIntersectFlat, h1, h2]
  · intro h
    push_neg at h
    unfold groundIntersectFlat
    rw [if_neg (not_lt.2 h.1), if_neg (not_lt.2 h.2)]
  · intro h
    unfold groundIntersectFlat
    rw [if_pos (by rw [h]; norm_num)]

/-- Witness for C3: a straight-down ray from 120 m to ground 0 m intersects at
offset (0, 0). -/
theorem C3_witness :
    groundIntersectFlat ⟨0, 0, -1⟩ 120 0 = some ((0 - 120) / (-1) * 0, (0 - 120) / (-1) * 0) :=
  (C3_flat_intersector_guards ⟨0, 0, -1⟩ 120 0).2.1 (by norm_num)

/-! ### Claim C4 -/

/-- Claim C4: for a ray with `|dz| ≥ 1e-6` the DEM-aware refiner (i) runs the
8-iteration loop seeded with the flat-plane parametric distance against the
configured ground elevation, replaced by `t = 1` when negative, and always
returns a result (`some …`, never a failure); (ii) any iteration whose
recomputed `tNew` satisfies `|tNew − t| < 0.05` immediately produces the
candidate `(latGuess, lonGuess)` with `range = hypot(eastMeters, northMeters)`
(when `tNew < 0` the loop breaks, but the break value coincides with that
candidate, which is built from the same `t` and `latCur`); (iii) exhausted
fuel returns the last computed candidate. -/
theorem C4_dem_refiner (s : CamState) (dem : Option (ℝ → ℝ → Option ℝ)) (u v : ℝ)
    (h : ¬|(demDir s u v).z| < 1e-6) :
    projectOnDEM s dem u v =
      some (demLoop (dem.getD fun _ _ => none) s.groundAlt s.lat s.lon s.alt_m
        (demDir s u v) 8
        (if (s.groundAlt - s.alt_m) / (demDir s u v).z < 0 then 1
         else (s.groundAlt - s.alt_m) / (demDir s u v).z) s.lat) ∧
    (∀ sample g la lo alt (d : V3) (n : ℕ) (t latCur : ℝ),
      |(((sample (la + t * d.y / (metersPerDeg latCur).1)
            (lo + t * d.x / (metersPerDeg latCur).2)).getD g - alt) / d.z) - t| < 0.05 →
      demLoop sample g la lo alt d (n + 1) t latCur =
        (la + t * d.y / (metersPerDeg latCur).1,
         lo + t * d.x / (metersPerDeg latCur).2,
         Real.sqrt ((t * d.x) ^ 2 + (t * d.y) ^ 2))) ∧
    (∀ sample g la lo alt (d : V3) (t latCur : ℝ),
      demLoop sample g la lo alt d 0 t latCur = demReturn la lo d t latCur) := by
  refine ⟨?_, ?_, ?_⟩
  · simp only [projectOnDEM]
    rw [if_neg h]
    cases dem <;> rfl
  · intro sample g la lo alt d n t latCur hconv
    simp only [demLoop]
    by_cases hneg : (((sample (la + t * d.y / (metersPerDeg latCur).1)
        (lo + t * d.x / (metersPerDeg latCur).2)).getD g - alt) / d.z) < 0
    · rw [if_pos hneg]
      rfl
    · rw [if_neg hneg, if_pos hconv]
  · intro sample g la lo alt d t latCur
    rfl

/-- Witness for C4: a straight-down ray (|dz| = 1 ≥ 1e-6) always yields a
result from the DEM projector. -/
theorem C4_witness :
    ∃ r, projectOnDEM
      ⟨1000, 1000, 500, 500, 54.55, 0, 0, 0, 0, 0, 40, 44.5, 120, 0, 0, 0,
        0, 1000, 1000, true, .normal, false, false, false, false, false, 0⟩
      none 500 500 = some r := by
  have hd : demDir
      ⟨1000, 1000, 500, 500, 54.55, 0, 0, 0, 0, 0, 40, 44.5, 120, 0, 0, 0,
        0, 1000, 1000, true, .normal, false, false, false, false, false, 0⟩
      500 500 = ⟨0, 0, -1⟩ := by
    unfold demDir uvDisplayToSensor undistortedUV hasDistortion effFx effFy
    norm_num
    unfold R_enu_cam_dem matMul matVec Rx Ry Rz R_base normalize
    norm_num [deg2rad_zero, deg2rad_neg]
  exact ⟨_, (C4_dem_refiner _ none 500 500 (by rw [hd]; norm_num)).1⟩

/-! ### Claim C5 -/

/-- Claim C5 as stated is false: at a DEM pixel center whose four window
samples are all valid and identical (value 100), the sampler returns
100 + 20 = 120, not the raw raster value — `DEM_OFFSET_M` is added on the
all-valid path. -/
theorem C5_counterexample :
    sampleDEM_AMSL
        (some ⟨10, 10, 44, 40, 1, -1, some (-9999), some true, fun _ _ => 100⟩)
        38 46 = some 120 ∧
    (⟨10, 10, 44, 40, 1, -1, some (-9999), some true, fun _ _ => (100 : ℝ)⟩ : Dem).raster 2 2
        = 100 ∧
    (120 : ℝ) ≠ 100 := by
  refine ⟨?_, rfl, by norm_num⟩
  unfold sampleDEM_AMSL demLatLonToRC demOk DEM_OFFSET_M
  norm_num

/-- Claim C5, amended: when the four window samples around a pixel-center query
are valid and identical, the sampler returns that pixel's raw raster value
plus the fixed vertical datum offset `DEM_OFFSET_M = 20` (bilinear
interpolation introduces no blending error, but the datum constant is added). -/
theorem C5_amended_center_sample (d : Dem) (la lo : ℝ) (r0 c0 : ℤ) (z : ℝ)
    (hgeo : d.isGeographic4326 ≠ some false)
    (hox : d.originX ≠ 0) (hoy : d.originY ≠ 0) (hrx : d.resX ≠ 0) (hry : d.resY ≠ 0)
    (hrow : (la - d.originY) / d.resY = (r0 : ℝ))
    (hcol : (lo - d.originX) / d.resX = (c0 : ℝ))
    (hr0 : ¬r0 < 0) (hr1 : ¬r0 ≥ d.height - 1)
    (hc0 : ¬c0 < 0) (hc1 : ¬c0 ≥ d.width - 1)
    (hz00 : d.raster r0 c0 = z) (hz10 : d.raster r0 (c0 + 1) = z)
    (hz01 : d.raster (r0 + 1) c0 = z) (hz11 : d.raster (r0 + 1) (c0 + 1) = z)
    (hok : demOk d.noData z = true) :
    sampleDEM_AMSL (some d) la lo = some (z + DEM_OFFSET_M) := by
  unfold sampleDEM_AMSL demLatLonToRC
  dsimp only
  rw [if_neg hgeo, if_neg (by push_neg; exact ⟨hox, hoy, hrx, hry⟩)]
  dsimp only
  rw [hrow, hcol, Int.floor_intCast, Int.floor_intCast]
  rw [if_neg (by push_neg; exact ⟨not_lt.mp hr0, not_le.mp hr1, not_lt.mp hc0, not_le.mp hc1⟩)]
  rw [hz00, hz10, hz01, hz11]
  rw [if_pos ⟨hok, hok, hok, hok⟩]
  norm_num

/-- Witness for the amended C5 at a concrete DEM and pixel-center query. -/
theorem C5_amended_witness :
    sampleDEM_AMSL
        (some ⟨10, 10, 44, 40, 1, -1, some (-9999), some true, fun _ _ => 100⟩)
        38 46 = some (100 + DEM_OFFSET_M) :=
  C5_amended_center_sample _ 38 46 2 2 100 (by simp) (by norm_num) (by norm_num)
    (by norm_num) (by norm_num) (by norm_num) (by norm_num) (by norm_num)
    (by norm_num) (by norm_num) (by norm_num) rfl rfl rfl rfl (by norm_num [demOk])

/-! ### Claim C6 -/

/-- Claim C6: a DEM whose coordinate reference is flagged not-geographic
(`isGeographic4326 === false`) makes the sampler return `none` for every
latitude/longitude input, in-bounds or not. -/
theorem C6_non_geographic_refused (d : Dem) (la lo : ℝ)
    (h : d.isGeographic4326 = some false) :
    sampleDEM_AMSL (some d) la lo = none := by
  unfold sampleDEM_AMSL
  dsimp only
  rw [if_pos h]

/-- Witness for C6: an in-bounds query against a non-geographic DEM. -/
theorem C6_witness :
    sampleDEM_AMSL
        (some ⟨10, 10, 44, 40, 1, -1, some (-9999), some false, fun _ _ => 100⟩)
        38 46 = none :=
  C6_non_geographic_refused _ 38 46 rfl

/-! ### Claim C7 -/

/-- Claim C7: the sampler reads the 2×2 window at `(⌊row⌋, ⌊col⌋)`; with the
1-pixel margin it returns `none` when the floor falls outside
`[0, height−1) × [0, width−1)`; a sample is invalid when it equals the no-data
value (non-finiteness is vacuous over ℝ); all four valid gives bilinear
interpolation with `dx = col − ⌊col⌋`, `dy = row − ⌊row⌋` (plus the fixed
datum offset); otherwise the first valid sample of the window, `none` when
there is none — the filtered list's head. -/
theorem C7_window_and_fallback (d : Dem) (la lo : ℝ) (row col : ℝ) (r0 c0 : ℤ)
    (hgeo : d.isGeographic4326 ≠ some false)
    (hox : d.originX ≠ 0) (hoy : d.originY ≠ 0) (hrx : d.resX ≠ 0) (hry : d.resY ≠ 0)
    (hrow : row = (la - d.originY) / d.resY)
    (hcol : col = (lo - d.originX) / d.resX)
    (hr0 : r0 = ⌊row⌋) (hc0 : c0 = ⌊col⌋) :
    ((r0 < 0 ∨ r0 ≥ d.height - 1 ∨ c0 < 0 ∨ c0 ≥ d.width - 1) →
      sampleDEM_AMSL (some d) la lo = none) ∧
    (¬(r0 < 0 ∨ r0 ≥ d.height - 1 ∨ c0 < 0 ∨ c0 ≥ d.width - 1) →
      ((demOk d.noData (d.raster r0 c0) ∧ demOk d.noData (d.raster r0 (c0 + 1)) ∧
        demOk d.noData (d.raster (r0 + 1) c0) ∧ demOk d.noData (d.raster (r0 + 1) (c0 + 1))) →
        sampleDEM_AMSL (some d) la lo =
          some ((d.raster r0 c0 * (1 - (col - (c0 : ℝ))) +
                  d.raster r0 (c0 + 1) * (col - (c0 : ℝ))) * (1 - (row - (r0 : ℝ))) +
                (d.raster (r0 + 1) c0 * (1 - (col - (c0 : ℝ))) +
                  d.raster (r0 + 1) (c0 + 1) * (col - (c0 : ℝ))) * (row - (r0 : ℝ)) +
                DEM_OFFSET_M))) ∧
    (¬(r0 < 0 ∨ r0 ≥ d.height - 1 ∨ c0 < 0 ∨ c0 ≥ d.width - 1) →
      ¬(demOk d.noData (d.raster r0 c0) ∧ demOk d.noData (d.raster r0 (c0 + 1)) ∧
        demOk d.noData (d.raster (r0 + 1) c0) ∧ demOk d.noData (d.raster (r0 + 1) (c0 + 1))) →
      sampleDEM_AMSL (some d) la lo =
        (List.filter (fun v => demOk d.noData v)
          [d.raster r0 c0, d.raster r0 (c0 + 1), d.raster (r0 + 1) c0,
            d.raster (r0 + 1) (c0 + 1)]).head?) := by
  subst hrow hcol hr0 hc0
  refine ⟨fun hb => ?_, fun hb hok => ?_, fun hb hnok => ?_⟩ <;>
    (unfold sampleDEM_AMSL demLatLonToRC
     dsimp only
     rw [if_neg hgeo, if_neg (by push_neg; exact ⟨hox, hoy, hrx, hry⟩)]
     dsimp only)
  · rw [if_pos hb]
  · rw [if_neg hb, if_pos hok]
  · rw [if_neg hb, if_neg hnok]
    cases List.filter (fun v => demOk d.noData v)
        [d.raster ⌊(la - d.originY) / d.resY⌋ ⌊(lo - d.originX) / d.resX⌋,
         d.raster ⌊(la - d.originY) / d.resY⌋ (⌊(lo - d.originX) / d.resX⌋ + 1),
         d.raster (⌊(la - d.originY) / d.resY⌋ + 1) ⌊(lo - d.originX) / d.resX⌋,
         d.raster (⌊(la - d.originY) / d.resY⌋ + 1) (⌊(lo - d.originX) / d.resX⌋ + 1)] <;>
      rfl

/-- Witness for C7: a query one pixel below the raster's last row
(`row = 9.5` in a 10-row DEM, so `⌊row⌋ = 9 ≥ height − 1`) returns `none`. -/
theorem C7_witness :
    sampleDEM_AMSL
        (some ⟨10, 10, 44, 40, 1, -1, some (-9999), some true, fun _ _ => 100⟩)
        30.5 46 = none :=
  (C7_window_and_fallback _ 30.5 46 9.5 2 9 2 (by simp) (by norm_num) (by norm_num)
      (by norm_num) (by norm_num) (by norm_num) (by norm_num) (by norm_num)
      (by norm_num)).1 (by norm_num)

/-! ### Claim C10 -/

/-- Claim C10: `DEM_OFFSET_M` (20 m) is added only on the all-valid bilinear
path of the sampler; on the partial-no-data fallback path the first valid raw
sample is returned without the offset (shown here for an invalid `z00` and a
valid `z10`), so the two paths can disagree by exactly 20 m for the same
terrain. -/
theorem C10_offset_only_on_bilinear_path (d : Dem) (la lo : ℝ) (row col : ℝ)
    (r0 c0 : ℤ)
    (hgeo : d.isGeographic4326 ≠ some false)
    (hox : d.originX ≠ 0) (hoy : d.originY ≠ 0) (hrx : d.resX ≠ 0) (hry : d.resY ≠ 0)
    (hrow : row = (la - d.originY) / d.resY)
    (hcol : col = (lo - d.originX) / d.resX)
    (hr0 : r0 = ⌊row⌋) (hc0 : c0 = ⌊col⌋)
    (hb : ¬(r0 < 0 ∨ r0 ≥ d.height - 1 ∨ c0 < 0 ∨ c0 ≥ d.width - 1)) :
    ((demOk d.noData (d.raster r0 c0) ∧ demOk d.noData (d.raster r0 (c0 + 1)) ∧
      demOk d.noData (d.raster (r0 + 1) c0) ∧ demOk d.noData (d.raster (r0 + 1) (c0 + 1))) →
      sampleDEM_AMSL (some d) la lo =
        some ((d.raster r0 c0 * (1 - (col - (c0 : ℝ))) +
                d.raster r0 (c0 + 1) * (col - (c0 : ℝ))) * (1 - (row - (r0 : ℝ))) +
              (d.raster (r0 + 1) c0 * (1 - (col - (c0 : ℝ))) +
                d.raster (r0 + 1) (c0 + 1) * (col - (c0 : ℝ))) * (row - (r0 : ℝ)) +
              DEM_OFFSET_M)) ∧
    (demOk d.noData (d.raster r0 c0) = false →
      demOk d.noData (d.raster r0 (c0 + 1)) = true →
      sampleDEM_AMSL (some d) la lo = some (d.raster r0 (c0 + 1))) := by
  subst hrow hcol hr0 hc0
  refine ⟨fun hok => ?_, fun hbad hgood => ?_⟩ <;>
    (unfold sampleDEM_AMSL demLatLonToRC
     dsimp only
     rw [if_neg hgeo, if_neg (by push_neg; exact ⟨hox, hoy, hrx, hry⟩)]
     dsimp only)
  · rw [if_neg hb, if_pos hok]
  · rw [if_neg hb, if_neg (by simp [hbad])]
    simp [List.filter_cons, hbad, hgood]

/-- Witness for C10: two DEMs over the same 100 m terrain; the all-valid DEM
reports 120 m at a pixel center while the DEM with a no-data corner reports
the raw 100 m — a 20 m discrepancy between the two paths. -/
theorem C10_witness :
    sampleDEM_AMSL
        (some ⟨10, 10, 44, 40, 1, -1, some (-9999), some true, fun _ _ => 100⟩)
        38 46 = some 120 ∧
    sampleDEM_AMSL
        (some ⟨10, 10, 44, 40, 1, -1, some (-9999), some true,
          fun r c => if r = 2 ∧ c = 2 then -9999 else 100⟩)
        38 46 = some 100 := by
  constructor
  · exact ((C10_offset_only_on_bilinear_path _ 38 46 2 2 2 2 (by simp) (by norm_num)
      (by norm_num) (by norm_num) (by norm_num) (by norm_num) (by norm_num)
      (by norm_num) (by norm_num) (by norm_num)).1
        (by norm_num [demOk])).trans (by norm_num [DEM_OFFSET_M])
  · exact ((C10_offset_only_on_bilinear_path _ 38 46 2 2 2 2 (by simp) (by norm_num)
      (by norm_num) (by norm_num) (by norm_num) (by norm_num) (by norm_num)
      (by norm_num) (by norm_num) (by norm_num)).2
        (by norm_num [demOk]) (by norm_num [demOk])).trans (by norm_num)

/-! ### Claim C8 -/

/-- Claim C8 describes the intended behaviour; the code diverges from it.
`autoFixPose` calls `setYaw/setPitch/setRoll` and then `project`, but React
state updates are deferred, so `project` still reads the original pose for
every sign combination: each combination is scored with the original pose's
projection, not its own.  At this concrete state (fx = fy = 1000, cx = 1250,
cy = 500, 1000×1000 image, yaw = 0, pitch = 90, roll = 0, camera 100 m above
ground 0 m) the original pose's center projection misses the ground, so the
code scores all eight combinations `+∞` and reports failure (`none`, pose
unchanged) — even though the combination with flipped pitch (yaw, −pitch,
roll) projects the image-center pixel onto the ground, so under the claimed
per-combination scoring its score would be finite and a flip would have been
applied. -/
theorem C8_autoFixPose_stale_pose_bug :
    autoFixPose
      ⟨1000, 1000, 1250, 500, 54.55, 0, 0, 0, 0, 0, 0, 0, 100, 0, 90, 0,
        0, 1000, 1000, true, .normal, false, false, false, false, false, 0⟩ = none ∧
    project
      ⟨1000, 1000, 1250, 500, 54.55, 0, 0, 0, 0, 0, 0, 0, 100, 0, -90, 0,
        0, 1000, 1000, true, .normal, false, false, false, false, false, 0⟩
      500 500 ≠ none := by
  have h25 : Real.sqrt 25 = 5 := by
    rw [show (25 : ℝ) = 5 ^ 2 by norm_num, Real.sqrt_sq (by norm_num)]
  have h16 : Real.sqrt 16 = 4 := by
    rw [show (16 : ℝ) = 4 ^ 2 by norm_num, Real.sqrt_sq (by norm_num)]
  constructor
  · have hhit : project
        ⟨1000, 1000, 1250, 500, 54.55, 0, 0, 0, 0, 0, 0, 0, 100, 0, 90, 0,
          0, 1000, 1000, true, .normal, false, false, false, false, false, 0⟩
        (1000 / 2) (1000 / 2) = none := by
      unfold project uvDisplayToSensor undistortedUV hasDistortion projectRot
        groundIntersectFlat effFx effFy normalize matVec matMul Rx Ry Rz R_base M3id
      norm_num [deg2rad_zero, deg2rad_neg, deg2rad_90, Real.cos_pi_div_two,
        Real.sin_pi_div_two, Real.cos_zero, Real.sin_zero, h25, h16, abs_of_pos,
        abs_of_neg]
    unfold autoFixPose
    rw [if_neg (by norm_num)]
    dsimp only
    simp only [hhit]
    simp [autoFixScore, scoreLt, List.flatMap]
  · unfold project uvDisplayToSensor undistortedUV hasDistortion projectRot
      groundIntersectFlat effFx effFy normalize matVec matMul Rx Ry Rz R_base M3id
    norm_num [deg2rad_zero, deg2rad_neg, deg2rad_90, Real.cos_pi_div_two,
      Real.sin_pi_div_two, Real.cos_zero, Real.sin_zero, h25, h16, abs_of_pos,
      abs_of_neg]
    simp

/-! ### Claim C9 -/

theorem distortNormXY_radial (k x y : ℝ) :
    distortNormXY k 0 0 0 0 x y =
      (x * (1 + k * (x * x + y * y)), y * (1 + k * (x * x + y * y))) := by
  unfold distortNormXY
  dsimp only
  refine Prod.ext ?_ ?_ <;> ring

theorem undistortIter_k1_succ (k xn yn : ℝ) (n : ℕ) :
    undistortIter k 0 0 0 0 xn yn (n + 1) =
      (xn - k * ((undistortIter k 0 0 0 0 xn yn n).1 * (undistortIter k 0 0 0 0 xn yn n).1 +
            (undistortIter k 0 0 0 0 xn yn n).2 * (undistortIter k 0 0 0 0 xn yn n).2) *
          (undistortIter k 0 0 0 0 xn yn n).1,
       yn - k * ((undistortIter k 0 0 0 0 xn yn n).1 * (undistortIter k 0 0 0 0 xn yn n).1 +
            (undistortIter k 0 0 0 0 xn yn n).2 * (undistortIter k 0 0 0 0 xn yn n).2) *
          (undistortIter k 0 0 0 0 xn yn n).2) := by
  rw [undistortIter]
  refine Prod.ext ?_ ?_ <;> (dsimp only; ring)

set_option maxHeartbeats 1000000 in
/-- One step of the pure-radial (`k1 = −1/50`) fixed-point update contracts the
squared error by at least a factor 64 on the unit disc. -/
theorem radial_step (x y U V : ℝ) (hA : x ^ 2 + y ^ 2 ≤ 1)
    (hE : (U - x) ^ 2 + (V - y) ^ 2 ≤ 1 / 2500) :
    ((x * (1 + -(1 / 50) * (x * x + y * y)) - -(1 / 50) * (U * U + V * V) * U) - x) ^ 2 +
    ((y * (1 + -(1 / 50) * (x * x + y * y)) - -(1 / 50) * (U * U + V * V) * V) - y) ^ 2 ≤
    ((U - x) ^ 2 + (V - y) ^ 2) / 64 := by
  have hA0 : (0 : ℝ) ≤ x ^ 2 + y ^ 2 := by positivity
  have hE0 : (0 : ℝ) ≤ (U - x) ^ 2 + (V - y) ^ 2 := by positivity
  have hR0 : (0 : ℝ) ≤ U ^ 2 + V ^ 2 := by positivity
  have h1 : U ^ 2 + V ^ 2 ≤ 2 * (x ^ 2 + y ^ 2) + 2 * ((U - x) ^ 2 + (V - y) ^ 2) := by
    nlinarith [sq_nonneg (x - (U - x)), sq_nonneg (y - (V - y))]
  have hR : U ^ 2 + V ^ 2 ≤ 2 + 2 * (1 / 2500) := by linarith
  have hlag : ((x + U) * (x - U) + (y + V) * (y - V)) ^ 2 ≤
      ((x + U) ^ 2 + (y + V) ^ 2) * ((x - U) ^ 2 + (y - V) ^ 2) := by
    nlinarith [sq_nonneg ((x + U) * (y - V) - (y + V) * (x - U))]
  have hsum : (x + U) ^ 2 + (y + V) ^ 2 ≤ 2 * (x ^ 2 + y ^ 2) + 2 * (U ^ 2 + V ^ 2) := by
    nlinarith [sq_nonneg (x - U), sq_nonneg (y - V)]
  have hprod := mul_le_mul_of_nonneg_right hsum hE0
  have h2 : ((x ^ 2 + y ^ 2) - (U ^ 2 + V ^ 2)) ^ 2 ≤
      (2 * (x ^ 2 + y ^ 2) + 2 * (U ^ 2 + V ^ 2)) * ((U - x) ^ 2 + (V - y) ^ 2) := by
    nlinarith [hlag, hprod]
  have hC : 2 * (x ^ 2 + y ^ 2) + 2 * (U ^ 2 + V ^ 2) ≤ 2 + 2 * (2 + 2 * (1 / 2500)) := by
    linarith
  have h6 : ((x ^ 2 + y ^ 2) - (U ^ 2 + V ^ 2)) ^ 2 ≤
      (2 + 2 * (2 + 2 * (1 / 2500))) * ((U - x) ^ 2 + (V - y) ^ 2) :=
    h2.trans (mul_le_mul_of_nonneg_right hC hE0)
  have h7 : ((x ^ 2 + y ^ 2) - (U ^ 2 + V ^ 2)) ^ 2 * (U ^ 2 + V ^ 2) ≤
      ((2 + 2 * (2 + 2 * (1 / 2500))) * ((U - x) ^ 2 + (V - y) ^ 2)) * (2 + 2 * (1 / 2500)) :=
    mul_le_mul h6 hR hR0 (by positivity)
  have hA2 : (x ^ 2 + y ^ 2) ^ 2 ≤ 1 := pow_le_one₀ hA0 hA
  have hA2E : (x ^ 2 + y ^ 2) ^ 2 * ((U - x) ^ 2 + (V - y) ^ 2) ≤
      1 * ((U - x) ^ 2 + (V - y) ^ 2) := mul_le_mul_of_nonneg_right hA2 hE0
  have hdec : ((x ^ 2 + y ^ 2) * x - (U ^ 2 + V ^ 2) * U) ^ 2 +
      ((x ^ 2 + y ^ 2) * y - (U ^ 2 + V ^ 2) * V) ^ 2 ≤
      2 * ((x ^ 2 + y ^ 2) ^ 2 * ((U - x) ^ 2 + (V - y) ^ 2)) +
      2 * (((x ^ 2 + y ^ 2) - (U ^ 2 + V ^ 2)) ^ 2 * (U ^ 2 + V ^ 2)) := by
    nlinarith [sq_nonneg ((x ^ 2 + y ^ 2) * (x - U) - ((x ^ 2 + y ^ 2) - (U ^ 2 + V ^ 2)) * U),
      sq_nonneg ((x ^ 2 + y ^ 2) * (y - V) - ((x ^ 2 + y ^ 2) - (U ^ 2 + V ^ 2)) * V)]
  nlinarith [hdec, hA2E, h7, hE0]

/-- Squared-error decay of the radial fixed-point iteration with `k1 = −1/50`
on the unit disc: after `n` steps the squared error is at most
`(1/2500)·(1/64)ⁿ`. -/
theorem radial_recover (x y : ℝ) (h : x ^ 2 + y ^ 2 < 1) :
    ∀ n : ℕ,
      ((undistortIter (-(1 / 50)) 0 0 0 0 (x * (1 + -(1 / 50) * (x * x + y * y)))
          (y * (1 + -(1 / 50) * (x * x + y * y))) n).1 - x) ^ 2 +
      ((undistortIter (-(1 / 50)) 0 0 0 0 (x * (1 + -(1 / 50) * (x * x + y * y)))
          (y * (1 + -(1 / 50) * (x * x + y * y))) n).2 - y) ^ 2 ≤
      (1 / 2500) * (1 / 64) ^ n := by
  have hA : x ^ 2 + y ^ 2 ≤ 1 := le_of_lt h
  have hA0 : (0 : ℝ) ≤ x ^ 2 + y ^ 2 := by positivity
  intro n
  induction n with
  | zero =>
    dsimp [undistortIter]
    have h3 : (x ^ 2 + y ^ 2) ^ 3 ≤ 1 := pow_le_one₀ hA0 hA
    nlinarith [h3, sq_nonneg x, sq_nonneg y]
  | succ n ih =>
    rw [undistortIter_k1_succ]
    have hpow : ((1 : ℝ) / 64) ^ n ≤ 1 := pow_le_one₀ (by norm_num) (by norm_num)
    have hEn : ((undistortIter (-(1 / 50)) 0 0 0 0 (x * (1 + -(1 / 50) * (x * x + y * y)))
        (y * (1 + -(1 / 50) * (x * x + y * y))) n).1 - x) ^ 2 +
        ((undistortIter (-(1 / 50)) 0 0 0 0 (x * (1 + -(1 / 50) * (x * x + y * y)))
          (y * (1 + -(1 / 50) * (x * x + y * y))) n).2 - y) ^ 2 ≤ 1 / 2500 := by
      refine ih.trans ?_
      nlinarith [hpow]
    have hstep := radial_step x y
      (undistortIter (-(1 / 50)) 0 0 0 0 (x * (1 + -(1 / 50) * (x * x + y * y)))
        (y * (1 + -(1 / 50) * (x * x + y * y))) n).1
      (undistortIter (-(1 / 50)) 0 0 0 0 (x * (1 + -(1 / 50) * (x * x + y * y)))
        (y * (1 + -(1 / 50) * (x * x + y * y))) n).2 hA hEn
    refine hstep.trans ?_
    have : ((1 : ℝ) / 2500) * (1 / 64) ^ (n + 1) = ((1 / 2500) * (1 / 64) ^ n) / 64 := by
      ring
    rw [this]
    linarith

/-- Claim C9 as stated is false: it quantifies over every distortion
coefficient set, but for `k1 = 4` (k2 = k3 = p1 = p2 = 0) and the normalized
point (1/2, 0) — inside the claimed operating range `r2 = 1/4 < 1` — the
forward-distorted point is (1, 0) and the 5-iteration fixed-point solver
diverges instead of recovering the point to 1e-4. -/
theorem C9_counterexample :
    ((1 / 2 : ℝ) ^ 2 + 0 ^ 2 < 1) ∧
    ¬(|(undistortIter 4 0 0 0 0 (distortNormXY 4 0 0 0 0 (1 / 2) 0).1
        (distortNormXY 4 0 0 0 0 (1 / 2) 0).2 5).1 - 1 / 2| ≤ 1e-4) := by
  constructor
  · norm_num
  have hd : distortNormXY 4 0 0 0 0 (1 / 2 : ℝ) 0 = (1, 0) := by
    rw [distortNormXY_radial]
    norm_num
  rw [hd]
  have i0 : undistortIter 4 0 0 0 0 (1 : ℝ) 0 0 = (1, 0) := rfl
  have i1 : undistortIter 4 0 0 0 0 (1 : ℝ) 0 1 = (-3, 0) := by
    show undistortIter 4 0 0 0 0 (1 : ℝ) 0 (0 + 1) = (-3, 0)
    rw [undistortIter_k1_succ, i0]
    norm_num
  have i2 : undistortIter 4 0 0 0 0 (1 : ℝ) 0 2 = (109, 0) := by
    show undistortIter 4 0 0 0 0 (1 : ℝ) 0 (1 + 1) = (109, 0)
    rw [undistortIter_k1_succ, i1]
    norm_num
  have i3 : undistortIter 4 0 0 0 0 (1 : ℝ) 0 3 = (-5180115, 0) := by
    show undistortIter 4 0 0 0 0 (1 : ℝ) 0 (2 + 1) = (-5180115, 0)
    rw [undistortIter_k1_succ, i2]
    norm_num
  have i4 : undistortIter 4 0 0 0 0 (1 : ℝ) 0 4 = (556004357534072083501, 0) := by
    show undistortIter 4 0 0 0 0 (1 : ℝ) 0 (3 + 1) = (556004357534072083501, 0)
    rw [undistortIter_k1_succ, i3]
    norm_num
  have i5 : undistortIter 4 0 0 0 0 (1 : ℝ) 0 5 =
      (-687534628974523846706675499535057685615832876937131512032002003, 0) := by
    show undistortIter 4 0 0 0 0 (1 : ℝ) 0 (4 + 1) =
      (-687534628974523846706675499535057685615832876937131512032002003, 0)
    rw [undistortIter_k1_succ, i4]
    norm_num
  rw [i5]
  have habs : |(-687534628974523846706675499535057685615832876937131512032002003 : ℝ) - 1 / 2| =
      687534628974523846706675499535057685615832876937131512032002003 + 1 / 2 := by
    rw [abs_of_nonpos (by norm_num)]
    ring
  dsimp only
  rw [habs]
  norm_num

/-- Claim C9, amended: for the synthetic pure-radial coefficient set
`k1 = −1/50` (k2 = k3 = p1 = p2 = 0) — magnitude comparable to the bundled
Sony calibration's k1 — forward-distorting any normalized point with
`r2 = x² + y² < 1` and then running the 5-iteration fixed-point solver on the
distorted result recovers the point within 1e-4 in each normalized coordinate;
and the solver of `undistortPixel` always performs exactly 5 iterations of the
fixed-point update, with no convergence check. -/
theorem C9_amended_roundtrip :
    (∀ x y : ℝ, x ^ 2 + y ^ 2 < 1 →
      |(undistortIter (-(1 / 50)) 0 0 0 0 (distortNormXY (-(1 / 50)) 0 0 0 0 x y).1
          (distortNormXY (-(1 / 50)) 0 0 0 0 x y).2 5).1 - x| ≤ 1e-4 ∧
      |(undistortIter (-(1 / 50)) 0 0 0 0 (distortNormXY (-(1 / 50)) 0 0 0 0 x y).1
          (distortNormXY (-(1 / 50)) 0 0 0 0 x y).2 5).2 - y| ≤ 1e-4) ∧
    (∀ k1 k2 k3 p1 p2 u v fx fy cx cy : ℝ,
      undistortPixel k1 k2 k3 p1 p2 u v fx fy cx cy =
        ((undistortIter k1 k2 k3 p1 p2 ((u - cx) / fx) ((v - cy) / fy) 5).1 * fx + cx,
         (undistortIter k1 k2 k3 p1 p2 ((u - cx) / fx) ((v - cy) / fy) 5).2 * fy + cy)) := by
  constructor
  · intro x y h
    rw [distortNormXY_radial]
    have h5 := radial_recover x y h 5
    have hbound : ((1 : ℝ) / 2500) * (1 / 64) ^ 5 ≤ (1e-4) ^ 2 := by norm_num
    constructor <;> (rw [abs_le]; constructor <;> nlinarith [h5, hbound])
  · intro k1 k2 k3 p1 p2 u v fx fy cx cy
    rfl

/-- Witness for the amended C9 at the concrete point (1/2, 0). -/
theorem C9_witness :
    |(undistortIter (-(1 / 50)) 0 0 0 0 (distortNormXY (-(1 / 50)) 0 0 0 0 (1 / 2) 0).1
        (distortNormXY (-(1 / 50)) 0 0 0 0 (1 / 2) 0).2 5).1 - 1 / 2| ≤ 1e-4 :=
  (C9_amended_roundtrip.1 (1 / 2) 0 (by norm_num)).1

end PixelToMap
